import Mathlib

/-!
Shallow embedding of `src/main.py` (Central Joias backend, FastAPI + MongoDB).

Documents stored in MongoDB are modelled as association lists from field
names to BSON-like values; the three collections (`home_content`,
`categories`, `products`) are lists of such documents, in insertion order.
Timestamps are integers (epoch seconds); numbers that Python stores as
`float` are modelled as rationals (only stored and compared, never computed
with arithmetically).
-/

namespace CentralJoias

/-- BSON-like value stored in a document field. -/
inductive Value where
  | str (s : String)
  | int (n : Int)
  | num (q : ℚ)
  | bool (b : Bool)
  | null
  | arr (xs : List Value)
  | obj (fields : List (String × Value))

/-- A MongoDB document: field names to values, in insertion order. -/
abbrev Doc := List (String × Value)

/-- Value of the first occurrence of field `k` in document `d`. -/
def getField (d : Doc) (k : String) : Option Value :=
  match d with
  | [] => none
  | (k', v) :: rest => if k' = k then some v else getField rest k

/-- MongoDB `$set` on a single field: replace the first occurrence of `k`
in place, or append the field at the end when it is absent. -/
def setField (d : Doc) (k : String) (v : Value) : Doc :=
  match d with
  | [] => [(k, v)]
  | (k', v') :: rest => if k' = k then (k', v) :: rest else (k', v') :: setField rest k v

/-- MongoDB `{$set: data}`: apply each field of `data` to `d` in order. -/
def applySet (d : Doc) (data : Doc) : Doc :=
  data.foldl (fun acc kv => setField acc kv.1 kv.2) d

/-- Filter `{k: true}`: the document's field `k` equals boolean `true`. -/
def fieldIsTrue (d : Doc) (k : String) : Bool :=
  match getField d k with
  | some (Value.bool true) => true
  | _ => false

/-- Filter `{k: s}` for a string value `s`. -/
def fieldIsStr (d : Doc) (k : String) (s : String) : Bool :=
  match getField d k with
  | some (Value.str s') => s' = s
  | _ => false

/-- Motor/Mongo `find_one(filter)`: first document matching the filter
(in natural, i.e. insertion, order). -/
def findOne (p : Doc → Bool) : List Doc → Option Doc
  | [] => none
  | d :: rest => if p d then some d else findOne p rest

/-- Motor/Mongo `update_one(filter, update)`: rewrite only the first
matching document, leave the rest of the collection unchanged. -/
def updateFirst (p : Doc → Bool) (f : Doc → Doc) : List Doc → List Doc
  | [] => []
  | d :: rest => if p d then f d :: rest else d :: updateFirst p f rest

/-! ## Authentication (src/main.py, AUTH and ADMIN LOGIN sections)

JWTs are embedded symbolically: a well-formed token records its payload
(`sub` and `exp` claims, each optional, as in a JWT) together with the
secret and algorithm it was signed with; signature verification succeeds
exactly when these match the configured secret and algorithm.  `jose`
(`python-jose`) raises some subclass of `JWTError` on a malformed token,
a failed signature check, or an expired token; its expiry check in
`jwt._validate_exp` rejects exactly when `exp < now` (integer epoch
seconds, no leeway configured).  All these failures are modelled as
`none`. -/

/-- Configured signing secret and algorithm (`JWT_SECRET_KEY`,
`JWT_ALGORITHM` environment values; startup fails when either is
missing, so both are present here). -/
structure JwtConfig where
  secret : String
  algorithm : String

/-- The claims of a well-formed token: optional subject, optional
expiry (epoch seconds). -/
structure JwtPayload where
  sub : Option String
  exp : Option Int
  deriving DecidableEq

/-- A bearer token: either well formed and signed with some secret and
algorithm, or malformed (not a decodable JWT at all). -/
inductive BearerToken where
  | signed (payload : JwtPayload) (secret : String) (alg : String)
  | malformed (raw : String)
  deriving DecidableEq

/-- `sub` claim of a token, if any. -/
def subjectOf : BearerToken → Option String
  | .signed p _ _ => p.sub
  | .malformed _ => none

/-- `exp` claim of a token, if any. -/
def expOf : BearerToken → Option Int
  | .signed p _ _ => p.exp
  | .malformed _ => none

/-- `jose.jwt.decode(token, JWT_SECRET, algorithms=[JWT_ALGORITHM])` at
current time `now`: `none` models a raised `JWTError` (malformed token,
signature failure, or expiry: `exp < now`). -/
def jwtDecode (cfg : JwtConfig) (now : Int) : BearerToken → Option JwtPayload
  | .malformed _ => none
  | .signed p sec alg =>
      if sec = cfg.secret ∧ alg = cfg.algorithm then
        match p.exp with
        | some e => if e < now then none else some p
        | none => some p
      else none

/-- Outcome of a request that ended in an error: an
`HTTPException(status, detail)` raised by the handler or a dependency, or
an exception that no handler catches (the server returns a 500); the
latter records the uncaught Python exception's description. -/
inductive HTTPError where
  | httpException (status : Nat) (detail : String)
  | uncaught (description : String)
  deriving DecidableEq

/-- `verify_token` (src/main.py lines 86-95): decode the credentials and
return `payload["sub"]`; a `JWTError` becomes
`HTTPException(401, "Token inválido")`.  `payload["sub"]` on a payload
with no `sub` claim raises a `KeyError`, which is not a `JWTError` and
therefore escapes the handler. -/
def verify_token (cfg : JwtConfig) (now : Int) (tok : BearerToken) : Except HTTPError String :=
  match jwtDecode cfg now tok with
  | none => .error (.httpException 401 "Token inválido")
  | some payload =>
      match payload.sub with
      | some s => .ok s
      | none => .error (.uncaught "KeyError: sub")

/-- The `Authorization` header of a request: absent, or a scheme plus
bearer credentials. -/
inductive AuthHeader where
  | missing
  | header (scheme : String) (credentials : BearerToken)

/-- Python's `str.lower()` as used on an HTTP auth scheme (ASCII
lowering, character by character). -/
def lowerAscii (s : String) : String := String.mk (s.data.map Char.toLower)

/-- `fastapi.security.HTTPBearer()` with the default `auto_error=True`
(the `security` dependency, src/main.py line 67): a missing header is
rejected with `HTTPException(403, "Not authenticated")`, a scheme other
than bearer (case-insensitive) with
`HTTPException(403, "Invalid authentication credentials")`. -/
def httpBearer : AuthHeader → Except HTTPError BearerToken
  | .missing => .error (.httpException 403 "Not authenticated")
  | .header scheme cred =>
      if lowerAscii scheme = "bearer" then .ok cred
      else .error (.httpException 403 "Invalid authentication credentials")

/-- Full configuration relevant to authentication: the JWT settings, the
token lifetime in hours (`JWT_EXPIRATION_HOURS`), and the admin
credentials (`ADMIN_USERNAME` / `ADMIN_PASSWORD`, which `os.getenv`
leaves as `None` when unset). -/
structure AuthConfig where
  jwt : JwtConfig
  expirationHours : Int
  adminUser : Option String
  adminPass : Option String

/-- `int(os.getenv("JWT_EXPIRATION_HOURS", 24))`: 24 when the variable
is unset, otherwise the integer parse of its value (`none` models the
`ValueError` that aborts startup on a non-numeric value). -/
def loadJwtExpirationHours : Option String → Option Int
  | none => some 24
  | some s => s.toInt?

/-- Request body of `POST /api/admin/login`. -/
structure AdminLogin where
  username : String
  password : String

/-- Response body of a successful login (`Token` model). -/
structure Token where
  access_token : BearerToken
  token_type : String
  deriving DecidableEq

/-- The token `admin_login` signs for user `u` at time `now`:
`{"sub": u, "exp": now + timedelta(hours=JWT_EXPIRATION_HOURS)}`, signed
with the configured secret and algorithm. -/
def issuedToken (cfg : AuthConfig) (now : Int) (u : String) : BearerToken :=
  .signed { sub := some u, exp := some (now + 3600 * cfg.expirationHours) }
    cfg.jwt.secret cfg.jwt.algorithm

/-- `admin_login` (src/main.py lines 198-211): reject with
`HTTPException(401, "Credenciais inválidas")` unless the submitted
username and password both equal the configured values (a Python string
never equals `None`, so an unset credential rejects everything);
otherwise sign and return a bearer token. -/
def admin_login (cfg : AuthConfig) (now : Int) (data : AdminLogin) : Except HTTPError Token :=
  if some data.username ≠ cfg.adminUser ∨ some data.password ≠ cfg.adminPass then
    .error (.httpException 401 "Credenciais inválidas")
  else
    .ok { access_token := issuedToken cfg now data.username, token_type := "bearer" }

/-! ## Data models (src/main.py, MODELS sections)

Each Pydantic model becomes a structure whose default field values mirror
the Python defaults; `model_dump` serializes it to a `Doc` in field
declaration order, as Pydantic does.  `datetime` values are epoch-second
integers, `float` values rationals.  Request bodies for the create
endpoints are structures with the required fields plain and every
defaulted field optional (`none` = absent from the JSON body), and a
`.ofBody` function models Pydantic validation: a supplied value is used
verbatim, a default (or default factory, receiving the freshly generated
`genId` / current time `now`) fills each absent field. -/

structure HomeBranding where
  nome_loja : String := ""
  slogan : String := ""
  logo_url : String := ""

def HomeBranding.model_dump (b : HomeBranding) : Value :=
  .obj [("nome_loja", .str b.nome_loja), ("slogan", .str b.slogan),
        ("logo_url", .str b.logo_url)]

structure HomeHero where
  imagem : String := ""
  titulo : String := ""
  texto : List String := []
  frase_impacto : String := ""
  cta_texto : String := ""
  cta_link : String := ""

def HomeHero.model_dump (h : HomeHero) : Value :=
  .obj [("imagem", .str h.imagem), ("titulo", .str h.titulo),
        ("texto", .arr (h.texto.map .str)), ("frase_impacto", .str h.frase_impacto),
        ("cta_texto", .str h.cta_texto), ("cta_link", .str h.cta_link)]

structure HomeSobre where
  titulo : String := ""
  mensagens : List String := []
  textos : List String := []
  fotos : List String := []

def HomeSobre.model_dump (h : HomeSobre) : Value :=
  .obj [("titulo", .str h.titulo), ("mensagens", .arr (h.mensagens.map .str)),
        ("textos", .arr (h.textos.map .str)), ("fotos", .arr (h.fotos.map .str))]

structure HomeContato where
  titulo : String := ""
  subtitulo : String := ""
  instagram_url : String := ""
  lojas : List Doc := []

def HomeContato.model_dump (h : HomeContato) : Value :=
  .obj [("titulo", .str h.titulo), ("subtitulo", .str h.subtitulo),
        ("instagram_url", .str h.instagram_url),
        ("lojas", .arr (h.lojas.map .obj))]

structure HomeFooter where
  institucional : String := ""
  cnpj : String := ""
  selo_texto : String := ""
  lojas : List Doc := []
  certificados : List String := []

def HomeFooter.model_dump (h : HomeFooter) : Value :=
  .obj [("institucional", .str h.institucional), ("cnpj", .str h.cnpj),
        ("selo_texto", .str h.selo_texto), ("lojas", .arr (h.lojas.map .obj)),
        ("certificados", .arr (h.certificados.map .str))]

structure HomeContent where
  slug : String := "home"
  branding : HomeBranding := {}
  hero : HomeHero := {}
  sobre : HomeSobre := {}
  contato : HomeContato := {}
  footer : HomeFooter := {}

def HomeContent.model_dump (h : HomeContent) : Doc :=
  [("slug", .str h.slug), ("branding", h.branding.model_dump),
   ("hero", h.hero.model_dump), ("sobre", h.sobre.model_dump),
   ("contato", h.contato.model_dump), ("footer", h.footer.model_dump)]

/-- `HomeContent().model_dump()`: the all-default home content document. -/
def homeContentDefaultDump : Doc := HomeContent.model_dump {}

structure Category where
  id : String
  nome : String
  slug : String
  ativo : Bool
  created_at : Int

def Category.model_dump (c : Category) : Doc :=
  [("id", .str c.id), ("nome", .str c.nome), ("slug", .str c.slug),
   ("ativo", .bool c.ativo), ("created_at", .int c.created_at)]

/-- JSON body of `POST /api/categories`: `nome` and `slug` are required
(Pydantic rejects their absence before the handler runs), the rest may be
supplied or left absent. -/
structure CategoryBody where
  id : Option String := none
  nome : String
  slug : String
  ativo : Option Bool := none
  created_at : Option Int := none

/-- Pydantic validation of a `Category` body: supplied values verbatim,
`default_factory`-generated id / UTC timestamp and `ativo = True` only
for absent fields. -/
def Category.ofBody (genId : String) (now : Int) (b : CategoryBody) : Category :=
  { id := b.id.getD genId, nome := b.nome, slug := b.slug,
    ativo := b.ativo.getD true, created_at := b.created_at.getD now }

structure ProductSpec where
  label : String
  value : String
  deriving DecidableEq

def ProductSpec.model_dump (s : ProductSpec) : Value :=
  .obj [("label", .str s.label), ("value", .str s.value)]

structure ProductCarousel where
  home : Bool := false
  promo : Bool := false
  destaque : Bool := false
  order : Int := 0
  deriving DecidableEq

def ProductCarousel.model_dump (c : ProductCarousel) : Value :=
  .obj [("home", .bool c.home), ("promo", .bool c.promo),
        ("destaque", .bool c.destaque), ("order", .int c.order)]

/-- JSON value supplied for the nested `carousel` model: each field may be
given or left to its default. -/
structure ProductCarouselBody where
  home : Option Bool := none
  promo : Option Bool := none
  destaque : Option Bool := none
  order : Option Int := none

def ProductCarousel.ofBody (b : ProductCarouselBody) : ProductCarousel :=
  { home := b.home.getD false, promo := b.promo.getD false,
    destaque := b.destaque.getD false, order := b.order.getD 0 }

structure Product where
  id : String
  name : String
  category : String
  price : ℚ
  promo_active : Bool
  promo_price : Option ℚ
  images : List String
  specs : List ProductSpec
  carousel : ProductCarousel
  active : Bool
  created_at : Int

def Product.model_dump (p : Product) : Doc :=
  [("id", .str p.id), ("name", .str p.name), ("category", .str p.category),
   ("price", .num p.price),
   ("promo_active", .bool p.promo_active),
   ("promo_price", match p.promo_price with | some q => .num q | none => .null),
   ("images", .arr (p.images.map .str)),
   ("specs", .arr (p.specs.map ProductSpec.model_dump)),
   ("carousel", p.carousel.model_dump),
   ("active", .bool p.active), ("created_at", .int p.created_at)]

/-- JSON body of `POST /api/products`: `name`, `category` and `price` are
required, the rest may be supplied or left absent (`promo_price` defaults
to `None`, so an explicit `null` and absence coincide, as in Pydantic). -/
structure ProductBody where
  id : Option String := none
  name : String
  category : String
  price : ℚ
  promo_active : Option Bool := none
  promo_price : Option ℚ := none
  images : Option (List String) := none
  specs : Option (List ProductSpec) := none
  carousel : Option ProductCarouselBody := none
  active : Option Bool := none
  created_at : Option Int := none

/-- Pydantic validation of a `Product` body: supplied values verbatim,
defaults only for absent fields. -/
def Product.ofBody (genId : String) (now : Int) (b : ProductBody) : Product :=
  { id := b.id.getD genId, name := b.name, category := b.category,
    price := b.price,
    promo_active := b.promo_active.getD false,
    promo_price := b.promo_price,
    images := b.images.getD [],
    specs := b.specs.getD [],
    carousel := match b.carousel with
                | some cb => ProductCarousel.ofBody cb
                | none => {},
    active := b.active.getD true,
    created_at := b.created_at.getD now }

/-! ## Application state and endpoint handlers

The three MongoDB collections, in insertion order.  Documents carry no
`_id` field in this model, matching the `{"_id": 0}` projection every
read uses.  Each handler is the body of the corresponding route function,
with the authenticated-user dependency already resolved; `genId` is the
`uuid4` string a `default_factory` would generate for this request and
`now` the current UTC time. -/

structure AppState where
  home_content : List Doc
  categories : List Doc
  products : List Doc

/-- The filter `{"slug": "home"}`. -/
def slugHome (d : Doc) : Bool := fieldIsStr d "slug" "home"

/-- The filter `{"id": id}`. -/
def hasId (d : Doc) (id : String) : Bool := fieldIsStr d "id" id

/-- `GET /api/home-content` (lines 217-220): the stored document with
slug `"home"`, or `HomeContent().model_dump()` when none is stored (a
read never writes and never fails). -/
def get_home_content (s : AppState) : Doc :=
  (findOne slugHome s.home_content).getD homeContentDefaultDump

/-- `PUT /api/home-content` (lines 222-232):
`update_one({"slug": "home"}, {"$set": data}, upsert=True)` — merge
`data` into the first matching document, or, when none matches, insert
the document Mongo builds from the filter's equality fields with `data`
then applied.  Returns `{"ok": True}`. -/
def update_home_content (data : Doc) (s : AppState) : AppState × Doc :=
  (match findOne slugHome s.home_content with
   | some _ =>
       { s with home_content := updateFirst slugHome (applySet · data) s.home_content }
   | none =>
       { s with home_content := s.home_content ++ [applySet [("slug", .str "home")] data] },
   [("ok", .bool true)])

/-- `GET /api/categories` (lines 238-243):
`find({"ativo": True}, {"_id": 0}).to_list(1000)`. -/
def get_categories (s : AppState) : List Doc :=
  (s.categories.filter (fun d => fieldIsTrue d "ativo")).take 1000

/-- `POST /api/categories` (lines 245-251): validate the body, insert the
dump, return the created category. -/
def create_category (genId : String) (now : Int) (b : CategoryBody) (s : AppState) :
    AppState × Doc :=
  let c := Category.ofBody genId now b
  ({ s with categories := s.categories ++ [c.model_dump] }, c.model_dump)

/-- `GET /api/products` (lines 257-262):
`find({"active": True}, {"_id": 0}).to_list(1000)`. -/
def get_products (s : AppState) : List Doc :=
  (s.products.filter (fun d => fieldIsTrue d "active")).take 1000

/-- `POST /api/products` (lines 264-270): validate the body, insert the
dump, return the created product. -/
def create_product (genId : String) (now : Int) (b : ProductBody) (s : AppState) :
    AppState × Doc :=
  let p := Product.ofBody genId now b
  ({ s with products := s.products ++ [p.model_dump] }, p.model_dump)

/-- `PUT /api/products/{id}` (lines 272-282):
`update_one({"id": id}, {"$set": data})` (no upsert), then `{"ok": True}`
whether or not anything matched. -/
def update_product (id : String) (data : Doc) (s : AppState) : AppState × Doc :=
  ({ s with products := updateFirst (hasId · id) (applySet · data) s.products },
   [("ok", .bool true)])

/-- `DELETE /api/products/{id}` (lines 284-293):
`update_one({"id": id}, {"$set": {"active": False}})`, then
`{"ok": True}` whether or not anything matched. -/
def delete_product (id : String) (s : AppState) : AppState × Doc :=
  ({ s with products := updateFirst (hasId · id) (applySet · [("active", .bool false)]) s.products },
   [("ok", .bool true)])

/-- What the external media host does with an upload: return a secure
URL, or raise with some message. -/
inductive CloudinaryOutcome where
  | success (secure_url : String)
  | failure (message : String)

/-- `POST /api/upload` (lines 299-312): pass the file through to
Cloudinary; on success return `{"url": result["secure_url"]}`, on any
exception `HTTPException(500, str(e))`. -/
def upload_image (outcome : CloudinaryOutcome) : Except HTTPError Doc :=
  match outcome with
  | .success u => .ok [("url", .str u)]
  | .failure m => .error (.httpException 500 m)

/-- A request to one of the six protected endpoints, with its
already-parsed body (and, for uploads, the media host's behaviour). -/
inductive ProtectedRequest where
  | putHomeContent (data : Doc)
  | postCategories (body : CategoryBody)
  | postProducts (body : ProductBody)
  | putProduct (id : String) (data : Doc)
  | deleteProduct (id : String)
  | postUpload (outcome : CloudinaryOutcome)

/-- Dispatch a protected request to its handler (after authentication). -/
def handleProtected (genId : String) (now : Int) (req : ProtectedRequest) (s : AppState) :
    AppState × Except HTTPError Doc :=
  match req with
  | .putHomeContent data => let r := update_home_content data s; (r.1, .ok r.2)
  | .postCategories b => let r := create_category genId now b s; (r.1, .ok r.2)
  | .postProducts b => let r := create_product genId now b s; (r.1, .ok r.2)
  | .putProduct id data => let r := update_product id data s; (r.1, .ok r.2)
  | .deleteProduct id => let r := delete_product id s; (r.1, .ok r.2)
  | .postUpload o => (s, upload_image o)

/-- A protected endpoint as served: the `security` dependency
(`HTTPBearer`) extracts the credentials, `verify_token` checks them, and
only then does the handler run; a failing dependency leaves the state
untouched. -/
def runProtected (cfg : AuthConfig) (now : Int) (genId : String) (auth : AuthHeader)
    (req : ProtectedRequest) (s : AppState) : AppState × Except HTTPError Doc :=
  match httpBearer auth with
  | .error e => (s, .error e)
  | .ok tok =>
      match verify_token cfg.jwt now tok with
      | .error e => (s, .error e)
      | .ok _user => handleProtected genId now req s

/-! ## Helper lemmas about the document operations -/

instance {ε α : Type} [DecidableEq ε] [DecidableEq α] : DecidableEq (Except ε α) :=
  fun a b =>
    match a, b with
    | .ok x, .ok y => if h : x = y then .isTrue (by rw [h]) else .isFalse (by simp [h])
    | .ok _, .error _ => .isFalse (by simp)
    | .error _, .ok _ => .isFalse (by simp)
    | .error e, .error f => if h : e = f then .isTrue (by rw [h]) else .isFalse (by simp [h])

theorem httpBearer_bearer (cred : BearerToken) :
    httpBearer (.header "Bearer" cred) = .ok cred := by
  have h : lowerAscii "Bearer" = "bearer" := by decide
  simp [httpBearer, h]

theorem AppState.ext_of (a b : AppState) (h1 : a.home_content = b.home_content)
    (h2 : a.categories = b.categories) (h3 : a.products = b.products) : a = b := by
  cases a
  cases b
  cases h1
  cases h2
  cases h3
  rfl

theorem getField_setField_self (d : Doc) (k : String) (v : Value) :
    getField (setField d k v) k = some v := by
  induction d with
  | nil => simp [setField, getField]
  | cons hd rest ih =>
      obtain ⟨k', v'⟩ := hd
      by_cases h : k' = k <;> simp [setField, getField, h, ih]

theorem getField_setField_ne (d : Doc) {k k' : String} (v : Value) (h : k' ≠ k) :
    getField (setField d k v) k' = getField d k' := by
  induction d with
  | nil => simp [setField, getField, Ne.symm h]
  | cons hd rest ih =>
      obtain ⟨k0, v0⟩ := hd
      by_cases h0 : k0 = k
      · subst h0
        simp [setField, getField, Ne.symm h, h]
      · by_cases h1 : k0 = k' <;>
          simp [setField, getField, h0, h1, ih, h, Ne.symm h]

theorem applySet_cons (d : Doc) (k : String) (v : Value) (rest : Doc) :
    applySet d ((k, v) :: rest) = applySet (setField d k v) rest := rfl

theorem getField_applySet_of_notMem (d : Doc) (data : Doc) {k : String}
    (h : k ∉ data.map Prod.fst) :
    getField (applySet d data) k = getField d k := by
  induction data generalizing d with
  | nil => rfl
  | cons kv rest ih =>
      obtain ⟨k0, v0⟩ := kv
      simp only [List.map_cons, List.mem_cons, not_or] at h
      rw [applySet_cons, ih (setField d k0 v0) h.2,
        getField_setField_ne d v0 h.1]

theorem getField_applySet_of_mem (d : Doc) {data : Doc} {k : String} {v : Value}
    (hnd : (data.map Prod.fst).Nodup) (hmem : (k, v) ∈ data) :
    getField (applySet d data) k = some v := by
  induction data generalizing d with
  | nil => cases hmem
  | cons kv rest ih =>
      obtain ⟨k0, v0⟩ := kv
      rw [applySet_cons]
      have hnd' : (k0 :: rest.map Prod.fst).Nodup := by simpa using hnd
      have hhead : k0 ∉ rest.map Prod.fst := (List.nodup_cons.mp hnd').1
      have htail : (rest.map Prod.fst).Nodup := (List.nodup_cons.mp hnd').2
      rcases List.mem_cons.mp hmem with heq | hmem'
      · injection heq with hk hv
        subst hk
        subst hv
        rw [getField_applySet_of_notMem _ rest hhead, getField_setField_self]
      · exact ih (setField d k0 v0) htail hmem'

theorem updateFirst_of_forall_not {p : Doc → Bool} (f : Doc → Doc) {l : List Doc}
    (h : ∀ d ∈ l, p d = false) : updateFirst p f l = l := by
  induction l with
  | nil => rfl
  | cons d rest ih =>
      simp [updateFirst, h d (List.mem_cons_self d rest),
        ih fun x hx => h x (List.mem_cons_of_mem d hx)]

theorem updateFirst_append {p : Doc → Bool} (f : Doc → Doc) {pre : List Doc} (d : Doc)
    (post : List Doc) (hpre : ∀ x ∈ pre, p x = false) (hd : p d = true) :
    updateFirst p f (pre ++ d :: post) = pre ++ f d :: post := by
  induction pre with
  | nil => simp [updateFirst, hd]
  | cons x rest ih =>
      simp [updateFirst, hpre x (List.mem_cons_self x rest),
        ih fun y hy => hpre y (List.mem_cons_of_mem x hy)]

theorem findOne_of_forall_not {p : Doc → Bool} {l : List Doc}
    (h : ∀ d ∈ l, p d = false) : findOne p l = none := by
  induction l with
  | nil => rfl
  | cons d rest ih =>
      simp [findOne, h d (List.mem_cons_self d rest),
        ih fun x hx => h x (List.mem_cons_of_mem d hx)]

theorem findOne_append {p : Doc → Bool} {pre : List Doc} (d : Doc) (post : List Doc)
    (hpre : ∀ x ∈ pre, p x = false) (hd : p d = true) :
    findOne p (pre ++ d :: post) = some d := by
  induction pre with
  | nil => simp [findOne, hd]
  | cons x rest ih =>
      simp [findOne, hpre x (List.mem_cons_self x rest),
        ih fun y hy => hpre y (List.mem_cons_of_mem x hy)]

theorem fieldIsTrue_iff (d : Doc) (k : String) :
    fieldIsTrue d k = true ↔ getField d k = some (Value.bool true) := by
  unfold fieldIsTrue
  cases h : getField d k with
  | none => simp
  | some v => cases v with
    | bool b => cases b <;> simp
    | _ => simp

theorem fieldIsStr_iff (d : Doc) (k s : String) :
    fieldIsStr d k s = true ↔ getField d k = some (Value.str s) := by
  unfold fieldIsStr
  cases h : getField d k with
  | none => simp
  | some v => cases v <;> simp [eq_comm]

/-! ## Claims -/

/-- The spec's notion of an invalid token for C1: malformed, wrong
signing secret or algorithm, or expired (expiry as the code's library
implements it: `exp < now`). -/
def tokenInvalidSpec (cfg : JwtConfig) (now : Int) : BearerToken → Bool
  | .malformed _ => true
  | .signed p sec alg =>
      !(sec == cfg.secret) || !(alg == cfg.algorithm) ||
        (match p.exp with | some e => decide (e < now) | none => false)

/-- C1: `verify_token` rejects malformed, badly-signed or expired tokens
with 401 "Token inválido" and otherwise returns the token's subject —
amended: a well-signed, unexpired token whose payload has no `sub` claim
is answered neither way; `payload["sub"]` raises an uncaught `KeyError`
(a 500), so the subject is returned only when a subject claim exists. -/
theorem C1_theorem (cfg : JwtConfig) (now : Int) (tok : BearerToken) :
    verify_token cfg now tok =
      if tokenInvalidSpec cfg now tok then .error (.httpException 401 "Token inválido")
      else
        match subjectOf tok with
        | some s => .ok s
        | none => .error (.uncaught "KeyError: sub") := by
  cases tok with
  | malformed raw => simp [verify_token, jwtDecode, tokenInvalidSpec]
  | signed p sec alg =>
      by_cases hs : sec = cfg.secret
      · by_cases ha : alg = cfg.algorithm
        · cases hexp : p.exp with
          | none =>
              cases hsub : p.sub <;>
                simp [verify_token, jwtDecode, tokenInvalidSpec, subjectOf, hs, ha, hexp, hsub]
          | some e =>
              by_cases he : e < now
              · simp [verify_token, jwtDecode, tokenInvalidSpec, hs, ha, hexp, he]
              · cases hsub : p.sub <;>
                  simp [verify_token, jwtDecode, tokenInvalidSpec, subjectOf, hs, ha, hexp, he,
                    hsub]
        · simp [verify_token, jwtDecode, tokenInvalidSpec, hs, ha]
      · simp [verify_token, jwtDecode, tokenInvalidSpec, hs]

/-- A JWT configuration used in concrete instances. -/
def jwtCfg0 : JwtConfig := { secret := "secret", algorithm := "HS256" }

/-- A token signed with the configured secret and algorithm, unexpired at
time 0, whose payload carries no `sub` claim. -/
def tokNoSub : BearerToken := .signed { sub := none, exp := some 100 } "secret" "HS256"

/-- C1 counterexample: the well-signed, unexpired, `sub`-less token is
neither answered with the subject nor with 401 "Token inválido" — the
handler dies on an uncaught `KeyError` (decoding itself succeeded). -/
theorem C1_counterexample :
    verify_token jwtCfg0 0 tokNoSub = .error (.uncaught "KeyError: sub") ∧
    verify_token jwtCfg0 0 tokNoSub ≠ .error (.httpException 401 "Token inválido") ∧
    (jwtDecode jwtCfg0 0 tokNoSub).isSome = true := by
  refine ⟨rfl, fun hcontra => ?_, rfl⟩
  rw [show verify_token jwtCfg0 0 tokNoSub = .error (.uncaught "KeyError: sub") from rfl] at hcontra
  exact absurd (Except.error.inj hcontra) (by simp)

/-- Configuration with admin credentials set, used in concrete instances:
secret "secret", HS256, 24-hour lifetime, admin "admin" / "pw". -/
def authCfg0 : AuthConfig :=
  { jwt := jwtCfg0, expirationHours := 24, adminUser := some "admin", adminPass := some "pw" }

/-- The empty storage state. -/
def emptyState : AppState := { home_content := [], categories := [], products := [] }

/-- C2: a protected request with no Authorization header, or bearing a
token signed with a secret different from the configured one, mutates
nothing — amended: the missing-header case is rejected by the
`HTTPBearer` security scheme with status 403 ("Not authenticated"), not
401; only the wrong-secret case yields 401 "Token inválido". -/
theorem C2_theorem (cfg : AuthConfig) (now : Int) (genId : String) (req : ProtectedRequest)
    (s : AppState) (p : JwtPayload) (sec alg : String) (hsec : sec ≠ cfg.jwt.secret) :
    runProtected cfg now genId .missing req s
      = (s, .error (.httpException 403 "Not authenticated")) ∧
    runProtected cfg now genId (.header "Bearer" (.signed p sec alg)) req s
      = (s, .error (.httpException 401 "Token inválido")) := by
  constructor
  · rfl
  · simp only [runProtected, httpBearer_bearer]
    simp [verify_token, jwtDecode, hsec]

/-- C2 witness: at the empty state, a DELETE with no header gets 403 and
one with a token signed by secret "other" gets 401; neither changes the
state. -/
theorem C2_witness :
    runProtected authCfg0 0 "gid" .missing (.deleteProduct "p1") emptyState
      = (emptyState, .error (.httpException 403 "Not authenticated")) ∧
    runProtected authCfg0 0 "gid"
        (.header "Bearer" (.signed { sub := some "admin", exp := none } "other" "HS256"))
        (.deleteProduct "p1") emptyState
      = (emptyState, .error (.httpException 401 "Token inválido")) :=
  C2_theorem authCfg0 0 "gid" (.deleteProduct "p1") emptyState
    { sub := some "admin", exp := none } "other" "HS256" (by decide)

/-- C2 counterexample: the claim announces status 401 for a request with
no Authorization header, but the `HTTPBearer` dependency rejects it with
status 403 ("Not authenticated"); the state is indeed left unchanged. -/
theorem C2_counterexample :
    runProtected authCfg0 0 "gid" .missing
        (.putHomeContent [("branding", .str "x")]) emptyState
      = (emptyState, .error (.httpException 403 "Not authenticated")) ∧
    (403 : Nat) ≠ 401 := ⟨rfl, by decide⟩

/-- C3: login succeeds (with a bearer token) exactly when both submitted
credentials equal the configured ones; any other pair — including every
pair when `ADMIN_USERNAME`/`ADMIN_PASSWORD` are unset — is rejected with
401 "Credenciais inválidas". -/
theorem C3_theorem (cfg : AuthConfig) (now : Int) (data : AdminLogin) :
    if cfg.adminUser = some data.username ∧ cfg.adminPass = some data.password then
      admin_login cfg now data
        = .ok { access_token := issuedToken cfg now data.username, token_type := "bearer" }
    else
      admin_login cfg now data = .error (.httpException 401 "Credenciais inválidas") := by
  by_cases h : cfg.adminUser = some data.username ∧ cfg.adminPass = some data.password
  · rw [if_pos h]
    unfold admin_login
    rw [if_neg (by simp [h.1, h.2])]
  · rw [if_neg h]
    unfold admin_login
    rw [if_pos ?_]
    by_contra hc
    push_neg at hc
    exact h ⟨hc.1.symm, hc.2.symm⟩

/-- C4: a token issued by login at time `t` with configured lifetime `L`
hours carries `sub = username` and `exp = t + 3600·L`, verification
before the expiry instant returns the username, the default lifetime is
24 hours — amended: verification fails only strictly after `t + 3600·L`;
at `T = t + 3600·L` exactly, the expiry check (`exp < now`) still
accepts, so acceptance holds for `T ≤ t + 3600·L` and rejection for
`T > t + 3600·L`, not for `T ≥ t + 3600·L`. -/
theorem C4_theorem (cfg : AuthConfig) (t T : Int) (u pw : String)
    (hu : cfg.adminUser = some u) (hp : cfg.adminPass = some pw) :
    admin_login cfg t { username := u, password := pw }
      = .ok { access_token := issuedToken cfg t u, token_type := "bearer" } ∧
    subjectOf (issuedToken cfg t u) = some u ∧
    expOf (issuedToken cfg t u) = some (t + 3600 * cfg.expirationHours) ∧
    (T ≤ t + 3600 * cfg.expirationHours →
      verify_token cfg.jwt T (issuedToken cfg t u) = .ok u) ∧
    (t + 3600 * cfg.expirationHours < T →
      verify_token cfg.jwt T (issuedToken cfg t u)
        = .error (.httpException 401 "Token inválido")) ∧
    loadJwtExpirationHours none = some 24 := by
  refine ⟨?_, rfl, rfl, ?_, ?_, rfl⟩
  · unfold admin_login
    rw [if_neg (by simp [hu, hp])]
  · intro hT
    unfold verify_token jwtDecode issuedToken
    simp [not_lt.mpr hT]
  · intro hT
    unfold verify_token jwtDecode issuedToken
    simp [hT]

/-- C4 witness: with the concrete configuration (lifetime 24 h), the
token issued at time 0 verifies at time 100 and is rejected at 86401. -/
theorem C4_witness :
    verify_token authCfg0.jwt 100 (issuedToken authCfg0 0 "admin") = .ok "admin" ∧
    verify_token authCfg0.jwt 86401 (issuedToken authCfg0 0 "admin")
      = .error (.httpException 401 "Token inválido") :=
  ⟨(C4_theorem authCfg0 0 100 "admin" "pw" rfl rfl).2.2.2.1 (by decide),
   (C4_theorem authCfg0 0 86401 "admin" "pw" rfl rfl).2.2.2.2.1 (by decide)⟩

/-- C4 counterexample: at `T = t + L` exactly (issue time 0, lifetime
24 h = 86400 s, verification time 86400) the token issued by login is
still accepted, where the claim requires rejection for every
`T ≥ t + L`. -/
theorem C4_counterexample :
    admin_login authCfg0 0 { username := "admin", password := "pw" }
      = .ok { access_token := .signed { sub := some "admin", exp := some 86400 } "secret" "HS256",
              token_type := "bearer" } ∧
    (86400 : Int) = 0 + 3600 * 24 ∧
    verify_token authCfg0.jwt 86400
        (.signed { sub := some "admin", exp := some 86400 } "secret" "HS256")
      = .ok "admin" := by
  refine ⟨by decide, by decide, rfl⟩

/-- C5: the category listing returns exactly the stored category
documents whose `ativo` field is `true` and the product listing exactly
those whose `active` field is `true` — never a document whose flag is
false — in stored order without an explicit sort (the result is a
sublist of the collection), capped at 1000 results (so "exactly those"
holds whenever the matching documents fit the cap). -/
theorem C5_theorem (s : AppState) :
    (∀ d ∈ get_categories s, getField d "ativo" = some (Value.bool true)) ∧
    List.Sublist (get_categories s) s.categories ∧
    (get_categories s).length ≤ 1000 ∧
    ((s.categories.filter (fun d => fieldIsTrue d "ativo")).length ≤ 1000 →
      ∀ d ∈ s.categories, getField d "ativo" = some (Value.bool true) →
        d ∈ get_categories s) ∧
    (∀ d ∈ get_products s, getField d "active" = some (Value.bool true)) ∧
    List.Sublist (get_products s) s.products ∧
    (get_products s).length ≤ 1000 ∧
    ((s.products.filter (fun d => fieldIsTrue d "active")).length ≤ 1000 →
      ∀ d ∈ s.products, getField d "active" = some (Value.bool true) →
        d ∈ get_products s) := by
  refine ⟨?_, ?_, ?_, ?_, ?_, ?_, ?_, ?_⟩
  · intro d hd
    have hmem := List.take_subset 1000 _ hd
    exact (fieldIsTrue_iff d "ativo").mp (List.mem_filter.mp hmem).2
  · exact (List.take_sublist 1000 _).trans (List.filter_sublist s.categories)
  · exact List.length_take_le 1000 _
  · intro hlen d hd hflag
    rw [get_categories, List.take_of_length_le hlen]
    exact List.mem_filter.mpr ⟨hd, (fieldIsTrue_iff d "ativo").mpr hflag⟩
  · intro d hd
    have hmem := List.take_subset 1000 _ hd
    exact (fieldIsTrue_iff d "active").mp (List.mem_filter.mp hmem).2
  · exact (List.take_sublist 1000 _).trans (List.filter_sublist s.products)
  · exact List.length_take_le 1000 _
  · intro hlen d hd hflag
    rw [get_products, List.take_of_length_le hlen]
    exact List.mem_filter.mpr ⟨hd, (fieldIsTrue_iff d "active").mpr hflag⟩

/-- An active category document, as stored. -/
def catActive : Doc := [("id", Value.str "c1"), ("nome", Value.str "Anéis"),
  ("slug", Value.str "aneis"), ("ativo", Value.bool true)]

/-- An inactive category document, as stored. -/
def catInactive : Doc := [("id", Value.str "c2"), ("nome", Value.str "Brincos"),
  ("slug", Value.str "brincos"), ("ativo", Value.bool false)]

/-- An active product document, as stored. -/
def prodActive : Doc := [("id", Value.str "p1"), ("name", Value.str "Anel de Prata"),
  ("price", Value.num (1999/10)), ("active", Value.bool true)]

/-- An inactive (soft-deleted) product document, as stored. -/
def prodInactive : Doc := [("id", Value.str "p2"), ("name", Value.str "Colar"),
  ("price", Value.num 50), ("active", Value.bool false)]

/-- A state mixing active and inactive documents in both collections. -/
def mixedState : AppState :=
  { home_content := [], categories := [catInactive, catActive],
    products := [prodActive, prodInactive] }

/-- C5 witness: in the mixed state, the active category and product are
listed (and, by direct evaluation, the listings contain only them). -/
theorem C5_witness :
    catActive ∈ get_categories mixedState ∧ prodActive ∈ get_products mixedState :=
  ⟨(C5_theorem mixedState).2.2.2.1 (by decide) catActive (by simp [mixedState]) rfl,
   (C5_theorem mixedState).2.2.2.2.2.2.2 (by decide) prodActive (by simp [mixedState]) rfl⟩

/-- C6: a product created from a body carrying only `name`, `category`
and `price` gets the generated id, `promo_active = false`, no
`promo_price`, empty `images` and `specs`, an all-default carousel,
`active = true` and the current UTC timestamp; the dump is persisted and
returned, and (as long as the listing cap is not already exceeded) the
new product appears in the product listing. -/
theorem C6_theorem (genId : String) (now : Int) (nm cat : String) (price : ℚ) (s : AppState)
    (hcap : (s.products.filter (fun d => fieldIsTrue d "active")).length < 1000) :
    let b : ProductBody := { name := nm, category := cat, price := price }
    let p := Product.ofBody genId now b
    p.id = genId ∧ p.promo_active = false ∧ p.promo_price = none ∧ p.images = [] ∧
    p.specs = [] ∧
    p.carousel = { home := false, promo := false, destaque := false, order := 0 } ∧
    p.active = true ∧ p.created_at = now ∧
    (create_product genId now b s).2 = p.model_dump ∧
    (create_product genId now b s).1.products = s.products ++ [p.model_dump] ∧
    p.model_dump ∈ get_products (create_product genId now b s).1 := by
  intro b p
  refine ⟨rfl, rfl, rfl, rfl, rfl, rfl, rfl, rfl, rfl, rfl, ?_⟩
  have hact : fieldIsTrue p.model_dump "active" = true := by
    simp [Product.model_dump, fieldIsTrue, getField, p, Product.ofBody, b]
  have hsplit : (s.products ++ [p.model_dump]).filter (fun d => fieldIsTrue d "active")
      = s.products.filter (fun d => fieldIsTrue d "active") ++ [p.model_dump] := by
    rw [List.filter_append]
    simp [hact]
  show p.model_dump ∈ ((s.products ++ [p.model_dump]).filter
    (fun d => fieldIsTrue d "active")).take 1000
  rw [hsplit, List.take_of_length_le (by simp; omega)]
  exact List.mem_append_right _ (List.mem_singleton_self _)

/-- C6 witness: creating `{name: "Anel de Prata", category: "aneis",
price: 199.90}` at the empty state puts the product into the listing. -/
theorem C6_witness :
    (Product.ofBody "gid" 0
        { name := "Anel de Prata", category := "aneis", price := 1999/10 }).model_dump
      ∈ get_products (create_product "gid" 0
          { name := "Anel de Prata", category := "aneis", price := 1999/10 } emptyState).1 :=
  ( C6_theorem "gid" 0 "Anel de Prata" "aneis" (1999/10) emptyState
    (by decide)).2.2.2.2.2.2.2.2.2.2

/-- C7: PUT and DELETE on a product id always answer `{ok: true}`; a
matched update rewrites only the first matching product — setting the
fields named in the map and preserving every other field of that product
and every other document — and a PUT or DELETE whose id matches nothing
leaves the whole state unchanged (silent no-op). -/
theorem C7_theorem (id : String) (data : Doc) (s : AppState) :
    (update_product id data s).2 = [("ok", Value.bool true)] ∧
    (delete_product id s).2 = [("ok", Value.bool true)] ∧
    (update_product id data s).1.home_content = s.home_content ∧
    (update_product id data s).1.categories = s.categories ∧
    ((∀ x ∈ s.products, hasId x id = false) →
      (update_product id data s).1 = s ∧ (delete_product id s).1 = s) ∧
    (∀ pre d post, s.products = pre ++ d :: post →
      (∀ x ∈ pre, hasId x id = false) → hasId d id = true →
      (update_product id data s).1.products = pre ++ applySet d data :: post ∧
      ((data.map Prod.fst).Nodup →
        ∀ k v, (k, v) ∈ data → getField (applySet d data) k = some v) ∧
      (∀ k, k ∉ data.map Prod.fst → getField (applySet d data) k = getField d k)) := by
  refine ⟨rfl, rfl, rfl, rfl, ?_, ?_⟩
  · intro hnone
    refine ⟨AppState.ext_of _ _ rfl rfl ?_, AppState.ext_of _ _ rfl rfl ?_⟩
    · show updateFirst (hasId · id) (applySet · data) s.products = s.products
      exact updateFirst_of_forall_not _ hnone
    · show updateFirst (hasId · id) (applySet · [("active", Value.bool false)]) s.products
        = s.products
      exact updateFirst_of_forall_not _ hnone
  · intro pre d post hsplit hpre hd
    refine ⟨?_, ?_, ?_⟩
    · show updateFirst (hasId · id) (applySet · data) s.products = _
      rw [hsplit, updateFirst_append _ d post hpre hd]
    · intro hnd k v hmem
      exact getField_applySet_of_mem d hnd hmem
    · intro k hk
      exact getField_applySet_of_notMem d data hk

/-- A state holding exactly one product, the active "Anel de Prata". -/
def oneProductState : AppState :=
  { home_content := [], categories := [], products := [prodActive] }

/-- C7 witness: updating product "p1" with `{price: 149.90}` changes
exactly the price field, and updating a missing id leaves the state
unchanged. -/
theorem C7_witness :
    (update_product "p1" [("price", Value.num (1499/10))] oneProductState).1.products
      = [applySet prodActive [("price", Value.num (1499/10))]] ∧
    getField (applySet prodActive [("price", Value.num (1499/10))]) "price"
      = some (Value.num (1499/10)) ∧
    getField (applySet prodActive [("price", Value.num (1499/10))]) "name"
      = getField prodActive "name" ∧
    (update_product "missing" [("price", Value.num (1499/10))] oneProductState).1
      = oneProductState ∧
    (update_product "p1" [("price", Value.num (1499/10))] oneProductState).2
      = [("ok", Value.bool true)] := by
  refine ⟨?_, ?_, ?_, ?_, ?_⟩
  · exact (( C7_theorem "p1" [("price", Value.num (1499/10))] oneProductState).2.2.2.2.2
      [] prodActive [] rfl (by simp) (by decide)).1
  · exact (( C7_theorem "p1" [("price", Value.num (1499/10))] oneProductState).2.2.2.2.2
      [] prodActive [] rfl (by simp) (by decide)).2.1 (by decide) "price" _ (by simp)
  · exact (( C7_theorem "p1" [("price", Value.num (1499/10))] oneProductState).2.2.2.2.2
      [] prodActive [] rfl (by simp) (by decide)).2.2 "name" (by decide)
  · exact ((( C7_theorem "missing" [("price", Value.num (1499/10))]
      oneProductState).2.2.2.2.1) (by decide)).1
  · exact ( C7_theorem "p1" [("price", Value.num (1499/10))] oneProductState).1

/-- The branding object written in the C8 scenario. -/
def homeBrandingWrite : Value := .obj [("nome_loja", Value.str "Central Joias")]

/-- C8: reading home content before any write returns the all-default
structure (the read never writes or fails); a PUT answers `{ok: true}`
and merges: fields named in the payload take the written values and,
when a home document already exists, its unnamed fields keep their
prior values — amended: when no document exists yet, the upsert creates
one holding only the slug and the written fields, so sections never
written are absent from subsequent reads rather than holding default
values (defaults are served only while no document exists at all). -/
theorem C8_theorem (data : Doc) (s : AppState) :
    ((∀ d ∈ s.home_content, slugHome d = false) →
      get_home_content s = homeContentDefaultDump) ∧
    (update_home_content data s).2 = [("ok", Value.bool true)] ∧
    (∀ pre d post, s.home_content = pre ++ d :: post →
      (∀ x ∈ pre, slugHome x = false) → slugHome d = true →
      slugHome (applySet d data) = true →
      get_home_content (update_home_content data s).1 = applySet d data) ∧
    ((∀ d ∈ s.home_content, slugHome d = false) →
      slugHome (applySet [("slug", Value.str "home")] data) = true →
      get_home_content (update_home_content data s).1
        = applySet [("slug", Value.str "home")] data) ∧
    (∀ d, (data.map Prod.fst).Nodup →
      ∀ k v, (k, v) ∈ data → getField (applySet d data) k = some v) ∧
    (∀ d k, k ∉ data.map Prod.fst → getField (applySet d data) k = getField d k) ∧
    (∀ k, k ∉ data.map Prod.fst → k ≠ "slug" →
      getField (applySet [("slug", Value.str "home")] data) k = none) := by
  refine ⟨?_, rfl, ?_, ?_, ?_, ?_, ?_⟩
  · intro h
    rw [get_home_content, findOne_of_forall_not h]
    rfl
  · intro pre d post hsplit hpre hd hd'
    have hfind : findOne slugHome s.home_content = some d := by
      rw [hsplit]
      exact findOne_append d post hpre hd
    have hstate : (update_home_content data s).1.home_content
        = updateFirst slugHome (applySet · data) s.home_content := by
      unfold update_home_content
      rw [hfind]
    rw [get_home_content, hstate, hsplit, updateFirst_append _ d post hpre hd,
      findOne_append (applySet d data) post hpre hd']
    rfl
  · intro hnone hslug
    have hfind : findOne slugHome s.home_content = none := findOne_of_forall_not hnone
    have hstate : (update_home_content data s).1.home_content
        = s.home_content ++ applySet [("slug", Value.str "home")] data :: [] := by
      unfold update_home_content
      rw [hfind]
    rw [get_home_content, hstate,
      findOne_append (applySet [("slug", Value.str "home")] data) [] hnone hslug]
    rfl
  · intro d hnd k v hmem
    exact getField_applySet_of_mem d hnd hmem
  · intro d k hk
    exact getField_applySet_of_notMem d data hk
  · intro k hk hkslug
    rw [getField_applySet_of_notMem _ data hk]
    simp [getField, Ne.symm hkslug]

/-- A state whose stored home document is the all-default one. -/
def homeDefaultState : AppState :=
  { home_content := [homeContentDefaultDump], categories := [], products := [] }

/-- C8 witness: with a stored (default) home document, writing the
branding merges it in, answers `{ok: true}`, and leaves the hero section
as it was. -/
theorem C8_witness :
    get_home_content
        (update_home_content [("branding", homeBrandingWrite)] homeDefaultState).1
      = applySet homeContentDefaultDump [("branding", homeBrandingWrite)] ∧
    getField (applySet homeContentDefaultDump [("branding", homeBrandingWrite)]) "branding"
      = some homeBrandingWrite ∧
    getField (applySet homeContentDefaultDump [("branding", homeBrandingWrite)]) "hero"
      = getField homeContentDefaultDump "hero" :=
  ⟨(C8_theorem [("branding", homeBrandingWrite)] homeDefaultState).2.2.1
      [] homeContentDefaultDump [] rfl (by simp) (by decide) (by decide),
   (C8_theorem [("branding", homeBrandingWrite)] homeDefaultState).2.2.2.2.1
      homeContentDefaultDump (by simp) "branding" homeBrandingWrite (by simp),
   (C8_theorem [("branding", homeBrandingWrite)] homeDefaultState).2.2.2.2.2.1
      homeContentDefaultDump "hero" (by decide)⟩

/-- C8 counterexample: from the empty store, writing only the branding
and reading back yields a document whose `hero` section is absent
(`getField` = `none`), while the all-default structure the claim says
those sections retain has a `hero` value — merge-upsert does not fill
unnamed sections with defaults. -/
theorem C8_counterexample :
    get_home_content emptyState = homeContentDefaultDump ∧
    getField (get_home_content
        (update_home_content [("branding", homeBrandingWrite)] emptyState).1) "branding"
      = some homeBrandingWrite ∧
    getField (get_home_content
        (update_home_content [("branding", homeBrandingWrite)] emptyState).1) "hero"
      = none ∧
    getField homeContentDefaultDump "hero" = some (HomeHero.model_dump {}) :=
  ⟨rfl, rfl, rfl, rfl⟩

/-- C9: soft deletion is NOT irreversible through the documented API —
amended: DELETE flips the matched product's `active` to false, but a
subsequent PUT /products/id with `{active: true}` (a documented
endpoint) flips it back to true, so the only amendment that survives is
that no dedicated "reactivate" endpoint exists, not that reactivation is
impossible. -/
theorem C9_theorem (id : String) (s : AppState) (pre post : List Doc) (d : Doc)
    (hsplit : s.products = pre ++ d :: post)
    (hpre : ∀ x ∈ pre, hasId x id = false) (hd : hasId d id = true) :
    (delete_product id s).1.products
      = pre ++ applySet d [("active", Value.bool false)] :: post ∧
    getField (applySet d [("active", Value.bool false)]) "active"
      = some (Value.bool false) ∧
    (update_product id [("active", Value.bool true)] (delete_product id s).1).1.products
      = pre ++ applySet (applySet d [("active", Value.bool false)])
          [("active", Value.bool true)] :: post ∧
    getField (applySet (applySet d [("active", Value.bool false)])
        [("active", Value.bool true)]) "active"
      = some (Value.bool true) := by
  have h1 : (delete_product id s).1.products
      = pre ++ applySet d [("active", Value.bool false)] :: post := by
    show updateFirst (hasId · id) (applySet · [("active", Value.bool false)]) s.products = _
    rw [hsplit, updateFirst_append _ d post hpre hd]
  have hid : getField (applySet d [("active", Value.bool false)]) "id" = getField d "id" :=
    getField_applySet_of_notMem d _ (by simp)
  have hd2 : hasId (applySet d [("active", Value.bool false)]) id = true := by
    simp only [hasId, fieldIsStr] at hd ⊢
    rw [hid]
    exact hd
  refine ⟨h1, getField_applySet_of_mem d (by simp) (by simp), ?_,
    getField_applySet_of_mem _ (by simp) (by simp)⟩
  show updateFirst (hasId · id) (applySet · [("active", Value.bool true)])
      (delete_product id s).1.products = _
  rw [h1, updateFirst_append _ _ post hpre hd2]

/-- C9 witness: deleting product "p1" stores it with `active = false`,
then updating it with `{active: true}` stores it with `active = true`
again. -/
theorem C9_witness :
    (delete_product "p1" oneProductState).1.products
      = [[("id", Value.str "p1"), ("name", Value.str "Anel de Prata"),
          ("price", Value.num (1999/10)), ("active", Value.bool false)]] ∧
    getField (applySet prodActive [("active", Value.bool false)]) "active"
      = some (Value.bool false) ∧
    (update_product "p1" [("active", Value.bool true)]
        (delete_product "p1" oneProductState).1).1.products
      = [[("id", Value.str "p1"), ("name", Value.str "Anel de Prata"),
          ("price", Value.num (1999/10)), ("active", Value.bool true)]] ∧
    getField (applySet (applySet prodActive [("active", Value.bool false)])
        [("active", Value.bool true)]) "active"
      = some (Value.bool true) :=
  C9_theorem "p1" oneProductState [] [] prodActive rfl (by simp) rfl

/-- A product document already soft-deleted (`active = false`). -/
def deletedProd : Doc := [("id", Value.str "p1"), ("name", Value.str "x"),
  ("active", Value.bool false)]

/-- The state whose only product is the soft-deleted one. -/
def deletedState : AppState :=
  { home_content := [], categories := [], products := [deletedProd] }

/-- C9 counterexample: the product has `active = false`, yet a single
documented API call — PUT /products/p1 with body `{active: true}` —
makes its `active` flag true again and the product reappears in the
listing, refuting irreversibility. -/
theorem C9_counterexample :
    getField deletedProd "active" = some (Value.bool false) ∧
    (update_product "p1" [("active", Value.bool true)] deletedState).1.products
      = [[("id", Value.str "p1"), ("name", Value.str "x"), ("active", Value.bool true)]] ∧
    get_products (update_product "p1" [("active", Value.bool true)] deletedState).1
      = [[("id", Value.str "p1"), ("name", Value.str "x"), ("active", Value.bool true)]] :=
  ⟨rfl, rfl, rfl⟩

/-- C10: Pydantic validation of create bodies uses client-supplied
values verbatim for `id`, `ativo`/`active`, `created_at`, the promo
fields and the carousel; the generated id, current timestamp and
documented defaults apply only to absent fields, and the validated
record is exactly what is persisted and returned — so a client can
create a category or product with a chosen id or an already-false
active flag. -/
theorem C10_theorem (genId : String) (now : Int) (bc : CategoryBody) (bp : ProductBody)
    (s : AppState) :
    (∀ i, bc.id = some i → (Category.ofBody genId now bc).id = i) ∧
    (bc.id = none → (Category.ofBody genId now bc).id = genId) ∧
    (∀ b, bc.ativo = some b → (Category.ofBody genId now bc).ativo = b) ∧
    (bc.ativo = none → (Category.ofBody genId now bc).ativo = true) ∧
    (∀ ts, bc.created_at = some ts → (Category.ofBody genId now bc).created_at = ts) ∧
    (bc.created_at = none → (Category.ofBody genId now bc).created_at = now) ∧
    (∀ i, bp.id = some i → (Product.ofBody genId now bp).id = i) ∧
    (bp.id = none → (Product.ofBody genId now bp).id = genId) ∧
    (∀ b, bp.active = some b → (Product.ofBody genId now bp).active = b) ∧
    (bp.active = none → (Product.ofBody genId now bp).active = true) ∧
    (∀ ts, bp.created_at = some ts → (Product.ofBody genId now bp).created_at = ts) ∧
    (bp.created_at = none → (Product.ofBody genId now bp).created_at = now) ∧
    (∀ b, bp.promo_active = some b → (Product.ofBody genId now bp).promo_active = b) ∧
    (Product.ofBody genId now bp).promo_price = bp.promo_price ∧
    (∀ cb, bp.carousel = some cb →
      (Product.ofBody genId now bp).carousel = ProductCarousel.ofBody cb) ∧
    (∀ cb b, bp.carousel = some cb → cb.home = some b →
      (Product.ofBody genId now bp).carousel.home = b) ∧
    (create_category genId now bc s).1.categories
      = s.categories ++ [(Category.ofBody genId now bc).model_dump] ∧
    (create_category genId now bc s).2 = (Category.ofBody genId now bc).model_dump ∧
    (create_product genId now bp s).1.products
      = s.products ++ [(Product.ofBody genId now bp).model_dump] ∧
    (create_product genId now bp s).2 = (Product.ofBody genId now bp).model_dump := by
  refine ⟨?_, ?_, ?_, ?_, ?_, ?_, ?_, ?_, ?_, ?_, ?_, ?_, ?_, rfl, ?_, ?_, rfl, rfl, rfl, rfl⟩
  · intro i h
    simp [Category.ofBody, h]
  · intro h
    simp [Category.ofBody, h]
  · intro b h
    simp [Category.ofBody, h]
  · intro h
    simp [Category.ofBody, h]
  · intro ts h
    simp [Category.ofBody, h]
  · intro h
    simp [Category.ofBody, h]
  · intro i h
    simp [Product.ofBody, h]
  · intro h
    simp [Product.ofBody, h]
  · intro b h
    simp [Product.ofBody, h]
  · intro h
    simp [Product.ofBody, h]
  · intro ts h
    simp [Product.ofBody, h]
  · intro h
    simp [Product.ofBody, h]
  · intro b h
    simp [Product.ofBody, h]
  · intro cb h
    simp [Product.ofBody, h]
  · intro cb b hcb hb
    simp [Product.ofBody, hcb, ProductCarousel.ofBody, hb]

/-- The category body of the C10 scenario: chosen id, inactive. -/
def chosenCatBody : CategoryBody :=
  { id := some "my-id", nome := "Anéis", slug := "aneis", ativo := some false }

/-- The product body of the C10 scenario: chosen id, inactive, promo. -/
def chosenProdBody : ProductBody :=
  { id := some "my-pid", name := "Anel", category := "aneis", price := 100,
    promo_active := some true, promo_price := some (899/10), active := some false,
    carousel := some { home := some true } }

/-- C10 witness: a category created with a chosen id and `ativo: false`,
and a product with a chosen id, promo fields and `active: false`, keep
every supplied value verbatim. -/
theorem C10_witness :
    (Category.ofBody "gid" 0 chosenCatBody).id = "my-id" ∧
    (Category.ofBody "gid" 0 chosenCatBody).ativo = false ∧
    (Product.ofBody "gid" 0 chosenProdBody).id = "my-pid" ∧
    (Product.ofBody "gid" 0 chosenProdBody).active = false ∧
    (Product.ofBody "gid" 0 chosenProdBody).promo_active = true ∧
    (Product.ofBody "gid" 0 chosenProdBody).carousel.home = true :=
  ⟨( C10_theorem "gid" 0 chosenCatBody chosenProdBody emptyState).1 "my-id" rfl,
   ( C10_theorem "gid" 0 chosenCatBody chosenProdBody emptyState).2.2.1 false rfl,
   ( C10_theorem "gid" 0 chosenCatBody chosenProdBody emptyState).2.2.2.2.2.2.1 "my-pid" rfl,
   ( C10_theorem "gid" 0 chosenCatBody chosenProdBody emptyState).2.2.2.2.2.2.2.2.1 false rfl,
   ( C10_theorem "gid" 0 chosenCatBody chosenProdBody emptyState).2.2.2.2.2.2.2.2.2.2.2.2.1
      true rfl,
   ( C10_theorem "gid" 0 chosenCatBody chosenProdBody emptyState).2.2.2.2.2.2.2.2.2.2.2.2.2.2.2.1
      { home := some true } true rfl rfl⟩

end CentralJoias
